import Mathlib

/-!
Shallow embedding of the retail theft-detection core (geometry utilities,
zone registry, person tracker, behavior rules, alert store, orchestrator)
translated from the Python sources in src/src/.  Machine floats are modelled
as exact rationals; comparisons of Euclidean distances against thresholds are
modelled by comparing squared distances against squared thresholds, which is
equivalent since the square root is monotone on nonnegative reals.
-/

/-! ### Geometry utilities (geometry_utils.py) -/

/-- A pixel bounding box, as the dictionaries with keys x, y, width, height
used throughout the source. -/
structure BBox where
  x : ℚ
  y : ℚ
  width : ℚ
  height : ℚ
  deriving DecidableEq

/-- calculate_bounding_box_center: (x + width/2, y + height/2). -/
def calculate_bounding_box_center (bbox : BBox) : ℚ × ℚ :=
  (bbox.x + bbox.width / 2, bbox.y + bbox.height / 2)

/-- Squared Euclidean distance between two points. -/
def dist_sq (p q : ℚ × ℚ) : ℚ :=
  (q.1 - p.1) ^ 2 + (q.2 - p.2) ^ 2

/-- calculate_distance_between_boxes bbox1 bbox2 < t, rendered on squares:
the source computes math.sqrt of the squared distance and compares it with t,
which for t ≥ 0 is equivalent to comparing the squared distance with t^2. -/
def boxes_within (bbox1 bbox2 : BBox) (t : ℚ) : Bool :=
  decide (dist_sq (calculate_bounding_box_center bbox1)
      (calculate_bounding_box_center bbox2) < t ^ 2)

/-- The helper _is_point_on_ray of geometry_utils.py: does the horizontal ray
from (x, y) cross the edge (p1x, p1y)-(p2x, p2y)?  Mirrors the nested ifs of
the source (the division computing xinters is only reached when p1y ≠ p2y). -/
def is_point_on_ray (x y p1x p1y p2x p2y : ℚ) : Bool :=
  decide (y > min p1y p2y) && decide (y ≤ max p1y p2y) &&
  decide (x ≤ max p1x p2x) && decide (p1y ≠ p2y) &&
  (decide (p1x = p2x) || decide (x ≤ (y - p1y) * (p2x - p1x) / (p2y - p1y) + p1x))

/-- point_in_polygon of geometry_utils.py: ray casting.  The source walks the
edges (polygon[i-1], polygon[i % n]) for i = 1..n, i.e. the cyclic edge list,
toggling an inside flag on each qualifying edge; fewer than 3 vertices yields
false immediately. -/
def point_in_polygon (point : ℚ × ℚ) (polygon : List (ℚ × ℚ)) : Bool :=
  if polygon.length < 3 then false
  else
    (polygon.zip (polygon.rotate 1)).foldl
      (fun inside e =>
        if is_point_on_ray point.1 point.2 e.1.1 e.1.2 e.2.1 e.2.2 then !inside
        else inside)
      false

/-- Python int() truncation toward zero of a rational (used when the zone
monitor converts a bounding-box center to integer pixel coordinates). -/
def py_int (q : ℚ) : ℤ :=
  q.num / (q.den : ℤ)

/-! ### Case-insensitive substring matching (str.lower and the in operator) -/

/-- Does hay start with sub? (helper for the Python in operator on strings). -/
def leading_match : List Char → List Char → Bool
  | [], _ => true
  | _ :: _, [] => false
  | c :: cs, d :: ds => decide (c = d) && leading_match cs ds

/-- Python sub in hay on strings: sub occurs contiguously in hay. -/
def contains_chars (sub : List Char) : List Char → Bool
  | [] => leading_match sub []
  | c :: rest => leading_match sub (c :: rest) || contains_chars sub rest

/-- sub in hay on Lean strings. -/
def str_contains (hay sub : String) : Bool :=
  contains_chars sub.data hay.data

/-- Python str.lower, character by character. -/
def to_lower (s : String) : String :=
  ⟨s.data.map Char.toLower⟩

/-- Python " ".join. -/
def join_spaced : List String → String
  | [] => ""
  | [s] => s
  | s :: rest => s ++ " " ++ join_spaced rest

/-! ### Configuration constants (config.py) -/

def MIN_CONFIDENCE : ℚ := 3 / 5

def CONCEALMENT_CONFIDENCE : ℚ := 7 / 10

def MAX_TRACKING_DISTANCE_PIXELS : ℚ := 100

def DEFAULT_FPS : ℚ := 30

def POSITION_HISTORY_SIZE : ℕ := 5

def MAX_RECENT_ALERTS : ℕ := 100

def HIGH_VALUE_EXIT_CONFIDENCE_MULTIPLIER : ℚ := 9 / 10

def HIGH_VALUE_ITEMS : List String :=
  ["laptop", "phone", "tablet", "camera", "jewelry", "watch", "electronics"]

def SUSPICIOUS_PATTERNS : List (List String × String) :=
  [(["person", "bag", "clothing"], "Person with bag near clothing"),
   (["person", "backpack", "electronics"], "Person with backpack near electronics"),
   (["person", "reaching"], "Person reaching for items")]

def VALID_SEVERITY_LEVELS : List String :=
  ["LOW", "MEDIUM", "HIGH", "CRITICAL"]

/-! ### Person tracker (person_tracker.py) -/

/-- PersonTrackingData: per-person tracking record. -/
structure PersonTrackingData where
  person_id : String
  first_frame : ℤ
  last_frame : ℤ
  position_history : List BBox
  deriving DecidableEq

/-- PersonTrackingData.add_position: append, advance last_frame, and keep only
the POSITION_HISTORY_SIZE most recent entries (Python history[-5:]). -/
def add_position (d : PersonTrackingData) (position : BBox) (frame_number : ℤ) :
    PersonTrackingData :=
  let h := d.position_history ++ [position]
  { d with
    last_frame := frame_number
    position_history :=
      if POSITION_HISTORY_SIZE < h.length then h.drop (h.length - POSITION_HISTORY_SIZE)
      else h }

/-- PersonTrackingData.calculate_dwell_time: (current_frame - first_frame) / fps. -/
def calculate_dwell_time (d : PersonTrackingData) (current_frame : ℤ) (fps : ℚ) : ℚ :=
  ((current_frame : ℚ) - (d.first_frame : ℚ)) / fps

/-- PersonTracker state: _tracked_people (a Python dict in insertion order,
modelled as an association list) and _next_person_id. -/
structure TrackerState where
  tracked_people : List (String × PersonTrackingData)
  next_person_id : ℕ
  deriving DecidableEq

/-- The per-entry condition of PersonTracker._find_matching_track: last seen on
the immediately preceding frame, has a last known position, and that position
is within MAX_TRACKING_DISTANCE_PIXELS (strictly) of the new bounding box. -/
def track_matches (bounding_box : BBox) (frame_number : ℤ) (d : PersonTrackingData) : Bool :=
  decide (d.last_frame = frame_number - 1) &&
  (match d.position_history.getLast? with
   | none => false
   | some last => boxes_within bounding_box last MAX_TRACKING_DISTANCE_PIXELS)

/-- PersonTracker._find_matching_track: first match in iteration order. -/
def find_matching_track (s : TrackerState) (bounding_box : BBox) (frame_number : ℤ) :
    Option String :=
  (s.tracked_people.find? (fun pd => track_matches bounding_box frame_number pd.2)).map
    (fun pd => pd.1)

/-- The f-string person id allocated by _create_new_track. -/
def person_id_str (n : ℕ) : String :=
  "person_" ++ Nat.repr n

/-- PersonTracker._create_new_track. -/
def create_new_track (s : TrackerState) (bounding_box : BBox) (frame_number : ℤ) :
    String × TrackerState :=
  let pid := person_id_str s.next_person_id
  (pid,
   { tracked_people :=
       s.tracked_people ++ [(pid, ⟨pid, frame_number, frame_number, [bounding_box]⟩)]
     next_person_id := s.next_person_id + 1 })

/-- PersonTracker._update_track (dict keys are unique, so updating every entry
with the given key models the dict mutation). -/
def update_track (s : TrackerState) (pid : String) (bounding_box : BBox) (frame_number : ℤ) :
    TrackerState :=
  { s with
    tracked_people :=
      s.tracked_people.map
        (fun pd => if pd.1 = pid then (pd.1, add_position pd.2 bounding_box frame_number) else pd) }

/-- PersonTracker.track_person. -/
def track_person (s : TrackerState) (bounding_box : BBox) (frame_number : ℤ) :
    String × TrackerState :=
  match find_matching_track s bounding_box frame_number with
  | none => create_new_track s bounding_box frame_number
  | some pid => (pid, update_track s pid bounding_box frame_number)

/-- PersonTracker.get_tracking_data. -/
def get_tracking_data (s : TrackerState) (pid : String) : Option PersonTrackingData :=
  (s.tracked_people.find? (fun pd => decide (pd.1 = pid))).map (fun pd => pd.2)

/-- PersonTracker.cleanup_old_tracks: remove every track whose
current_frame - last_frame exceeds max_age_frames. -/
def cleanup_old_tracks (s : TrackerState) (current_frame : ℤ) (max_age_frames : ℤ) :
    TrackerState :=
  { s with
    tracked_people :=
      s.tracked_people.filter
        (fun pd => decide (current_frame - pd.2.last_frame ≤ max_age_frames)) }

/-! ### Behavior analyzer (behavior_analyzer.py) -/

/-- BehaviorAnalyzer.analyze_object_for_high_value: item and exit are matched
case-insensitively as substrings. -/
def analyze_object_for_high_value (object_name zone_name : String) : Bool :=
  (HIGH_VALUE_ITEMS.any fun item => str_contains (to_lower object_name) item) &&
  str_contains (to_lower zone_name) "exit"

/-- The joined, lowercased tag string of detect_concealment_patterns. -/
def normalized_tags (tags : List String) : String :=
  join_spaced (tags.map to_lower)

/-- Does one suspicious pattern match the joined tag string? -/
def pattern_matches (tags : List String) (pat : List String × String) : Bool :=
  pat.1.all fun tag => str_contains (normalized_tags tags) tag

/-- BehaviorAnalyzer.detect_concealment_patterns: the source returns from
inside the loop, so only the FIRST matching pattern's description escapes. -/
def detect_concealment_patterns (tags : List String) : Option String :=
  (SUSPICIOUS_PATTERNS.find? (pattern_matches tags)).map (fun pat => pat.2)

/-- Every suspicious pattern matching a tag set (used to compare the source's
first-match behavior with the one-alert-per-combination reading). -/
def matching_patterns (tags : List String) : List (List String × String) :=
  SUSPICIOUS_PATTERNS.filter (pattern_matches tags)

/-- BehaviorAnalyzer.should_alert_for_loitering: dwell time at the default
fps exceeds the zone threshold (strictly). -/
def should_alert_for_loitering (d : PersonTrackingData) (current_frame : ℤ)
    (max_loiter_seconds : ℚ) : Bool :=
  decide (calculate_dwell_time d current_frame DEFAULT_FPS > max_loiter_seconds)

/-! ### Zone monitor (zone_monitor.py) -/

/-- DetectionZone. -/
structure DetectionZone where
  name : String
  coordinates : List (ℚ × ℚ)
  is_restricted : Bool
  alert_on_loitering : Bool
  max_loiter_seconds : ℚ
  deriving DecidableEq

/-- DetectionZone.contains_point. -/
def zone_contains_point (z : DetectionZone) (x y : ℚ) : Bool :=
  point_in_polygon (x, y) z.coordinates

/-- ZoneMonitor.find_zone_for_point: first zone in registration order. -/
def find_zone_for_point (zones : List DetectionZone) (x y : ℚ) : Option DetectionZone :=
  zones.find? (fun z => zone_contains_point z x y)

/-- ZoneMonitor.find_zone_for_bounding_box: looks up the int-truncated center. -/
def find_zone_for_bounding_box (zones : List DetectionZone) (bounding_box : BBox) :
    Option DetectionZone :=
  let c := calculate_bounding_box_center bounding_box
  find_zone_for_point zones (py_int c.1 : ℚ) (py_int c.2 : ℚ)

/-! ### Alert manager (alert_manager.py, validators.py) -/

/-- TheftAlert record (timestamps modelled as an abstract clock value). -/
structure TheftAlert where
  timestamp : ℕ
  alert_type : String
  confidence : ℚ
  location : String
  description : String
  image_path : String
  bounding_boxes : List BBox
  severity : String
  deriving DecidableEq

/-- The ValidationError raised by validators.py, tagged by which check failed. -/
inductive ValidationError where
  | invalidSeverity : String → ValidationError
  | invalidConfidence : ℚ → ValidationError
  deriving DecidableEq

/-- validators.validate_severity_level. -/
def validate_severity_level (severity : String) : Except ValidationError Unit :=
  if severity ∈ VALID_SEVERITY_LEVELS then Except.ok ()
  else Except.error (ValidationError.invalidSeverity severity)

/-- validators.validate_confidence_score. -/
def validate_confidence_score (confidence : ℚ) : Except ValidationError Unit :=
  if 0 ≤ confidence ∧ confidence ≤ 1 then Except.ok ()
  else Except.error (ValidationError.invalidConfidence confidence)

/-- The parameters of AlertManager.create_alert. -/
structure AlertParams where
  alert_type : String
  confidence : ℚ
  location : String
  description : String
  image_path : String
  bounding_boxes : List BBox
  severity : String
  deriving DecidableEq

/-- The alert record built when no validation fails. -/
def alert_of (now : ℕ) (p : AlertParams) : TheftAlert :=
  ⟨now, p.alert_type, p.confidence, p.location, p.description, p.image_path,
   p.bounding_boxes, p.severity⟩

/-- TheftAlert construction: __post_init__ validates severity, then
confidence, raising ValidationError on the first failing check. -/
def mk_theft_alert (now : ℕ) (p : AlertParams) : Except ValidationError TheftAlert :=
  match validate_severity_level p.severity with
  | Except.error e => Except.error e
  | Except.ok _ =>
    match validate_confidence_score p.confidence with
    | Except.error e => Except.error e
    | Except.ok _ => Except.ok (alert_of now p)

/-- AlertManager._add_alert: append, then keep only the MAX_RECENT_ALERTS most
recent entries (Python alerts[-100:]). -/
def add_alert (store : List TheftAlert) (alert : TheftAlert) : List TheftAlert :=
  let s := store ++ [alert]
  if MAX_RECENT_ALERTS < s.length then s.drop (s.length - MAX_RECENT_ALERTS) else s

/-- AlertManager.create_alert: construct (validating), then append.  A raised
ValidationError propagates before _add_alert runs, leaving the store as-is. -/
def create_alert (store : List TheftAlert) (now : ℕ) (p : AlertParams) :
    Except ValidationError TheftAlert × List TheftAlert :=
  match mk_theft_alert now p with
  | Except.error e => (Except.error e, store)
  | Except.ok a => (Except.ok a, add_alert store a)

/-- Python l[k:] slice semantics for an arbitrary integer start index. -/
def py_slice_from {α : Type} (l : List α) (k : ℤ) : List α :=
  if 0 ≤ k then l.drop k.toNat else l.drop ((l.length + k).toNat)

/-- AlertManager.get_recent_alerts: all alerts when count is unspecified,
otherwise the Python slice alerts[-count:]. -/
def get_recent_alerts (store : List TheftAlert) (count : Option ℤ) : List TheftAlert :=
  match count with
  | none => store
  | some c => py_slice_from store (-c)

/-- Run create_alert over a list of parameter records, threading the store. -/
def run_creates (store : List TheftAlert) (now : ℕ) : List AlertParams → List TheftAlert
  | [] => store
  | p :: rest => run_creates (create_alert store now p).2 now rest

/-- create_alert parameters that pass both validators. -/
def valid_params (p : AlertParams) : Prop :=
  p.severity ∈ VALID_SEVERITY_LEVELS ∧ 0 ≤ p.confidence ∧ p.confidence ≤ 1

/-! ### Detection orchestrator (detection_orchestrator.py) -/

/-- A detected person from the vision result: bounding box and confidence. -/
structure DetectedPerson where
  bounding_box : BBox
  confidence : ℚ
  deriving DecidableEq

/-- A detected object: either a well-formed duck-typed value carrying a tag
list (name and confidence per tag) and a bounding box, or a malformed value
whose attribute access raises at runtime. -/
inductive DetectedObject where
  | valid (tags : List (String × ℚ)) (bounding_box : BBox)
  | malformed
  deriving DecidableEq

/-- A scene tag of the vision result. -/
structure SceneTag where
  name : String
  confidence : ℚ
  deriving DecidableEq

/-- The vision analysis result; each category may be absent (Python None). -/
structure DetectionResult where
  people : Option (List DetectedPerson)
  objects : Option (List DetectedObject)
  tags : Option (List SceneTag)
  deriving DecidableEq

/-- Exceptions that can escape a pipeline stage: a ValidationError from alert
construction, or the attribute error from touching a malformed object. -/
inductive AnalysisError where
  | validation : ValidationError → AnalysisError
  | attributeError : AnalysisError
  deriving DecidableEq

/-- DetectionOrchestrator._check_restricted_area_violation.  Returns the
optional alert and the store as mutated by create_alert. -/
def check_restricted_area_violation (store : List TheftAlert) (now : ℕ)
    (zone : DetectionZone) (bounding_box : BBox) (confidence : ℚ) (image_path : String) :
    Except ValidationError (Option TheftAlert) × List TheftAlert :=
  if zone.is_restricted then
    match create_alert store now
        ⟨"RESTRICTED_AREA_VIOLATION", confidence, zone.name,
         "Unauthorized person in " ++ zone.name, image_path, [bounding_box], "CRITICAL"⟩ with
    | (Except.error e, s) => (Except.error e, s)
    | (Except.ok a, s) => (Except.ok (some a), s)
  else (Except.ok none, store)

/-- DetectionOrchestrator._check_loitering_violation.  The numeric dwell time
interpolated into the description string is elided (string formatting only). -/
def check_loitering_violation (store : List TheftAlert) (now : ℕ) (tracker : TrackerState)
    (zone : DetectionZone) (person_id : String) (bounding_box : BBox) (frame_number : ℤ)
    (image_path : String) :
    Except ValidationError (Option TheftAlert) × List TheftAlert :=
  if !zone.alert_on_loitering then (Except.ok none, store)
  else
    match get_tracking_data tracker person_id with
    | none => (Except.ok none, store)
    | some d =>
      if !should_alert_for_loitering d frame_number zone.max_loiter_seconds then
        (Except.ok none, store)
      else
        match create_alert store now
            ⟨"LOITERING", 17 / 20, zone.name, "Person loitering in " ++ zone.name,
             image_path, [bounding_box], "MEDIUM"⟩ with
        | (Except.error e, s) => (Except.error e, s)
        | (Except.ok a, s) => (Except.ok (some a), s)

/-- DetectionOrchestrator._check_high_value_at_exit. -/
def check_high_value_at_exit (store : List TheftAlert) (now : ℕ) (object_name : String)
    (zone : DetectionZone) (bounding_box : BBox) (confidence : ℚ) (image_path : String) :
    Except ValidationError (Option TheftAlert) × List TheftAlert :=
  if analyze_object_for_high_value object_name zone.name then
    match create_alert store now
        ⟨"UNPAID_ITEM_AT_EXIT", confidence * HIGH_VALUE_EXIT_CONFIDENCE_MULTIPLIER,
         zone.name, "High-value " ++ object_name ++ " detected at exit", image_path,
         [bounding_box], "HIGH"⟩ with
    | (Except.error e, s) => (Except.error e, s)
    | (Except.ok a, s) => (Except.ok (some a), s)
  else (Except.ok none, store)

/-- The body of the per-person loop of _analyze_people: track, resolve zone,
then the restricted-area and loitering checks. -/
def analyze_one_person (zones : List DetectionZone) (tracker : TrackerState)
    (store : List TheftAlert) (now : ℕ) (p : DetectedPerson) (image_path : String)
    (frame_number : ℤ) :
    Except ValidationError (List TheftAlert) × List TheftAlert × TrackerState :=
  let person_id := (track_person tracker p.bounding_box frame_number).1
  let tracker1 := (track_person tracker p.bounding_box frame_number).2
  match find_zone_for_bounding_box zones p.bounding_box with
  | none => (Except.ok [], store, tracker1)
  | some zone =>
    match check_restricted_area_violation store now zone p.bounding_box p.confidence
        image_path with
    | (Except.error e, s1) => (Except.error e, s1, tracker1)
    | (Except.ok oa, s1) =>
      match check_loitering_violation s1 now tracker1 zone person_id p.bounding_box
          frame_number image_path with
      | (Except.error e, s2) => (Except.error e, s2, tracker1)
      | (Except.ok ob, s2) => (Except.ok (oa.toList ++ ob.toList), s2, tracker1)

/-- The person loop of _analyze_people; an exception stops the loop but the
store keeps every alert already appended. -/
def analyze_people_go (zones : List DetectionZone) (now : ℕ) (image_path : String)
    (frame_number : ℤ) :
    List DetectedPerson → TrackerState → List TheftAlert →
    Except ValidationError (List TheftAlert) × List TheftAlert × TrackerState
  | [], tracker, store => (Except.ok [], store, tracker)
  | p :: rest, tracker, store =>
    match analyze_one_person zones tracker store now p image_path frame_number with
    | (Except.error e, s1, t1) => (Except.error e, s1, t1)
    | (Except.ok as1, s1, t1) =>
      match analyze_people_go zones now image_path frame_number rest t1 s1 with
      | (Except.error e, s2, t2) => (Except.error e, s2, t2)
      | (Except.ok as2, s2, t2) => (Except.ok (as1 ++ as2), s2, t2)

/-- DetectionOrchestrator._analyze_people (an absent or empty people category
is falsy in Python and yields no alerts). -/
def analyze_people (zones : List DetectionZone) (tracker : TrackerState)
    (store : List TheftAlert) (now : ℕ) (result : DetectionResult) (image_path : String)
    (frame_number : ℤ) :
    Except ValidationError (List TheftAlert) × List TheftAlert × TrackerState :=
  match result.people with
  | none => (Except.ok [], store, tracker)
  | some [] => (Except.ok [], store, tracker)
  | some ps => analyze_people_go zones now image_path frame_number ps tracker store

/-- The body of the per-object loop of _analyze_objects: the first tag names
the object (or "unknown" with confidence 0), low-confidence detections are
skipped, then the high-value-at-exit check runs in the resolved zone.
Touching a malformed object raises. -/
def analyze_one_object (zones : List DetectionZone) (store : List TheftAlert) (now : ℕ)
    (obj : DetectedObject) (image_path : String) :
    Except AnalysisError (List TheftAlert) × List TheftAlert :=
  match obj with
  | DetectedObject.malformed => (Except.error AnalysisError.attributeError, store)
  | DetectedObject.valid tags bbox =>
    let obj_name := match tags.head? with | some t => t.1 | none => "unknown"
    let confidence := match tags.head? with | some t => t.2 | none => 0
    if confidence < MIN_CONFIDENCE then (Except.ok [], store)
    else
      match find_zone_for_bounding_box zones bbox with
      | none => (Except.ok [], store)
      | some zone =>
        match check_high_value_at_exit store now obj_name zone bbox confidence image_path with
        | (Except.error e, s) => (Except.error (AnalysisError.validation e), s)
        | (Except.ok oa, s) => (Except.ok oa.toList, s)

/-- The object loop of _analyze_objects. -/
def analyze_objects_go (zones : List DetectionZone) (now : ℕ) (image_path : String) :
    List DetectedObject → List TheftAlert →
    Except AnalysisError (List TheftAlert) × List TheftAlert
  | [], store => (Except.ok [], store)
  | o :: rest, store =>
    match analyze_one_object zones store now o image_path with
    | (Except.error e, s1) => (Except.error e, s1)
    | (Except.ok as1, s1) =>
      match analyze_objects_go zones now image_path rest s1 with
      | (Except.error e, s2) => (Except.error e, s2)
      | (Except.ok as2, s2) => (Except.ok (as1 ++ as2), s2)

/-- DetectionOrchestrator._analyze_objects. -/
def analyze_objects (zones : List DetectionZone) (store : List TheftAlert) (now : ℕ)
    (result : DetectionResult) (image_path : String) :
    Except AnalysisError (List TheftAlert) × List TheftAlert :=
  match result.objects with
  | none => (Except.ok [], store)
  | some [] => (Except.ok [], store)
  | some os => analyze_objects_go zones now image_path os store

/-- DetectionOrchestrator._analyze_behavior_patterns: filter the scene tags by
confidence (strictly above MIN_CONFIDENCE), run the concealment-pattern
detector once on the filtered names, and raise at most one alert. -/
def analyze_behavior_patterns (store : List TheftAlert) (now : ℕ)
    (result : DetectionResult) (image_path : String) :
    Except ValidationError (List TheftAlert) × List TheftAlert :=
  match result.tags with
  | none => (Except.ok [], store)
  | some [] => (Except.ok [], store)
  | some ts =>
    let tags := (ts.filter fun t => decide (t.confidence > MIN_CONFIDENCE)).map
      (fun t => t.name)
    match detect_concealment_patterns tags with
    | none => (Except.ok [], store)
    | some desc =>
      match create_alert store now
          ⟨"CONCEALMENT_PATTERN", CONCEALMENT_CONFIDENCE, "Unknown", desc, image_path,
           [], "MEDIUM"⟩ with
      | (Except.error e, s) => (Except.error e, s)
      | (Except.ok a, s) => (Except.ok [a], s)

/-- DetectionOrchestrator.analyze_frame: run the three stages in order and
concatenate their alerts; any exception is caught at this boundary and turns
the frame's alert list into [], leaving the store as mutated so far.  Returns
(returned alerts, alert store, tracker state). -/
def analyze_frame (zones : List DetectionZone) (tracker : TrackerState)
    (store : List TheftAlert) (now : ℕ) (result : DetectionResult) (image_path : String)
    (frame_number : ℤ) : List TheftAlert × List TheftAlert × TrackerState :=
  match analyze_people zones tracker store now result image_path frame_number with
  | (Except.error _, s1, t1) => ([], s1, t1)
  | (Except.ok pa, s1, t1) =>
    match analyze_objects zones s1 now result image_path with
    | (Except.error _, s2) => ([], s2, t1)
    | (Except.ok oa, s2) =>
      match analyze_behavior_patterns s2 now result image_path with
      | (Except.error _, s3) => ([], s3, t1)
      | (Except.ok ba, s3) => (pa ++ oa ++ ba, s3, t1)

/-! ### Tracker operation traces (for the id-freshness invariant) -/

/-- An externally triggered tracker operation: a track_person call or an
explicit cleanup_old_tracks call. -/
inductive TrackerOp where
  | track (bounding_box : BBox) (frame_number : ℤ)
  | cleanup (current_frame : ℤ) (max_age_frames : ℤ)
  deriving DecidableEq

/-- One tracker operation, also accumulating every id the tracker has issued
(ghost state recording the return values of creating track_person calls). -/
def tracker_step (st : TrackerState × List String) (op : TrackerOp) :
    TrackerState × List String :=
  match op with
  | TrackerOp.track bbox f =>
    match find_matching_track st.1 bbox f with
    | none =>
      let r := track_person st.1 bbox f
      (r.2, st.2 ++ [r.1])
    | some _ => ((track_person st.1 bbox f).2, st.2)
  | TrackerOp.cleanup cur maxAge => (cleanup_old_tracks st.1 cur maxAge, st.2)

/-- Run a trace of tracker operations from the freshly initialized tracker. -/
def run_tracker (ops : List TrackerOp) : TrackerState × List String :=
  ops.foldl tracker_step (⟨[], 0⟩, [])

/-! ### Claim-side predicates and decoding helpers -/

/-- The numeric value of a decimal digit character. -/
def decode_digit (c : Char) : ℕ :=
  c.toNat - 48

/-- Decode a decimal digit string back to the natural number it denotes
(left inverse of Nat.repr, used to show person ids are never reused). -/
def decode_digits (l : List Char) : ℕ :=
  l.foldl (fun a c => 10 * a + decode_digit c) 0

/-- The spec's matching condition for track_person: some tracked person was
last seen on the immediately preceding frame and the Euclidean distance
between that person's last recorded bounding-box center and the new box's
center is strictly below 100 pixels (stated on squared distances, which is
equivalent since the square root is monotone on nonnegative reals). -/
def claim_match (bounding_box : BBox) (frame_number : ℤ) (d : PersonTrackingData) : Prop :=
  d.last_frame = frame_number - 1 ∧
  ∃ last, d.position_history.getLast? = some last ∧
    dist_sq (calculate_bounding_box_center bounding_box)
      (calculate_bounding_box_center last) < 100 ^ 2

/-- The spec's case-insensitive substring condition: sub occurs contiguously
inside the lowercased hay. -/
def ci_contains (hay sub : String) : Prop :=
  ∃ l1 l2, (to_lower hay).data = l1 ++ (sub.data ++ l2)

/-! ### Sample fixtures (from DefaultZones of config.py and the tests) -/

/-- The Exit_Zone of DefaultZones.get_default_zones. -/
def exit_zone : DetectionZone :=
  ⟨"Exit_Zone", [(700, 0), (1000, 0), (1000, 200), (700, 200)], false, false, 120⟩

/-- The Employee_Storage restricted zone of DefaultZones.get_default_zones. -/
def storage_zone : DetectionZone :=
  ⟨"Employee_Storage", [(0, 400), (200, 400), (200, 600), (0, 600)], true, false, 120⟩

/-- A loitering-alerting zone with a negative threshold (constructible since
DetectionZone validation only checks the polygon). -/
def test_loiter_zone : DetectionZone :=
  ⟨"Lobby", [(0, 0), (1000, 0), (1000, 1000), (0, 1000)], false, true, -1⟩

/-- Valid create_alert parameters used as a sample input. -/
def sample_params : AlertParams :=
  ⟨"LOITERING", 1 / 2, "Z", "d", "i", [], "MEDIUM"⟩

/-! ### Helper lemmas: strings and substrings -/

theorem string_eq_of_data {s t : String} (h : s.data = t.data) : s = t := by
  cases s
  cases t
  exact congrArg String.mk h

theorem leading_match_iff (sub : List Char) : ∀ hay : List Char,
    leading_match sub hay = true ↔ ∃ rest, hay = sub ++ rest := by
  induction sub with
  | nil =>
    intro hay
    simp [leading_match]
  | cons c cs ih =>
    intro hay
    cases hay with
    | nil =>
      simp [leading_match]
    | cons d ds =>
      simp only [leading_match, Bool.and_eq_true, decide_eq_true_eq, ih ds]
      constructor
      · rintro ⟨rfl, rest, rfl⟩
        exact ⟨rest, rfl⟩
      · rintro ⟨rest, h⟩
        rw [List.cons_append] at h
        injection h with h1 h2
        exact ⟨h1.symm, rest, h2⟩

theorem contains_chars_iff (sub : List Char) : ∀ hay : List Char,
    contains_chars sub hay = true ↔ ∃ l1 l2, hay = l1 ++ (sub ++ l2) := by
  intro hay
  induction hay with
  | nil =>
    simp only [contains_chars, leading_match_iff]
    constructor
    · rintro ⟨rest, h⟩
      exact ⟨[], rest, by simpa using h⟩
    · rintro ⟨l1, l2, h⟩
      have h1 : l1 = [] ∧ sub ++ l2 = [] := by
        have := List.append_eq_nil.mp h.symm
        exact this
      exact ⟨l2, by simp [h1.2.symm]⟩
  | cons c cs ih =>
    simp only [contains_chars, Bool.or_eq_true, leading_match_iff, ih]
    constructor
    · rintro (⟨rest, h⟩ | ⟨l1, l2, h⟩)
      · exact ⟨[], rest, by simpa using h⟩
      · exact ⟨c :: l1, l2, by simp [h]⟩
    · rintro ⟨l1, l2, h⟩
      cases l1 with
      | nil =>
        exact Or.inl ⟨l2, by simpa using h⟩
      | cons a l1 =>
        rw [List.cons_append] at h
        injection h with h1 h2
        exact Or.inr ⟨l1, l2, h2⟩

theorem str_contains_iff (hay sub : String) :
    str_contains hay sub = true ↔ ∃ l1 l2, hay.data = l1 ++ (sub.data ++ l2) := by
  unfold str_contains
  exact contains_chars_iff sub.data hay.data

/-! ### Helper lemmas: decimal rendering of naturals is injective -/

theorem decode_digit_digitChar {r : ℕ} (h : r < 10) :
    decode_digit (Nat.digitChar r) = r := by
  interval_cases r <;> decide

theorem toDigitsCore_append : ∀ n : ℕ, ∀ f : ℕ, n < f → ∀ l : List Char,
    Nat.toDigitsCore 10 f n l = Nat.toDigitsCore 10 (n + 1) n [] ++ l := by
  intro n
  induction n using Nat.strong_induction_on with
  | _ n ih =>
    intro f hn l
    obtain ⟨g, rfl⟩ : ∃ g, f = g + 1 := ⟨f - 1, by omega⟩
    simp only [Nat.toDigitsCore]
    by_cases h10 : n / 10 = 0
    · simp [h10]
    · have hpos : 0 < n := by
        by_contra hc
        have h0 : n = 0 := by omega
        simp [h0] at h10
      have hdiv : n / 10 < n := Nat.div_lt_self hpos (by norm_num)
      rw [if_neg h10, if_neg h10]
      rw [ih (n / 10) hdiv g (by omega) (Nat.digitChar (n % 10) :: l)]
      rw [ih (n / 10) hdiv n hdiv (Nat.digitChar (n % 10) :: [])]
      simp

theorem decode_toDigits : ∀ n : ℕ, decode_digits (Nat.toDigits 10 n) = n := by
  intro n
  induction n using Nat.strong_induction_on with
  | _ n ih =>
    unfold Nat.toDigits
    simp only [Nat.toDigitsCore]
    by_cases h10 : n / 10 = 0
    · have hlt : n < 10 := by omega
      have hmod : n % 10 = n := Nat.mod_eq_of_lt hlt
      simp [h10, decode_digits, hmod, decode_digit_digitChar hlt]
    · have hpos : 0 < n := by
        by_contra hc
        have h0 : n = 0 := by omega
        simp [h0] at h10
      have hdiv : n / 10 < n := Nat.div_lt_self hpos (by norm_num)
      rw [if_neg h10]
      rw [toDigitsCore_append (n / 10) n hdiv (Nat.digitChar (n % 10) :: [])]
      have hrec : decode_digits (Nat.toDigitsCore 10 (n / 10 + 1) (n / 10) []) = n / 10 := by
        have := ih (n / 10) hdiv
        unfold Nat.toDigits at this
        exact this
      unfold decode_digits at hrec ⊢
      rw [List.foldl_append, hrec]
      simp [decode_digit_digitChar (Nat.mod_lt n (by norm_num))]
      omega

theorem nat_repr_inj {m n : ℕ} (h : Nat.repr m = Nat.repr n) : m = n := by
  have hd : Nat.toDigits 10 m = Nat.toDigits 10 n := by
    have h2 := congrArg String.data h
    simpa [Nat.repr, List.asString] using h2
  have hm := decode_toDigits m
  rw [hd, decode_toDigits n] at hm
  exact hm.symm

theorem person_id_str_inj {m n : ℕ} (h : person_id_str m = person_id_str n) : m = n := by
  have h2 := congrArg String.data h
  simp only [person_id_str, String.data_append] at h2
  have h3 : (Nat.repr m).data = (Nat.repr n).data :=
    (List.append_right_inj _).mp h2
  exact nat_repr_inj (string_eq_of_data h3)

/-! ### Helper lemmas: first-match searches -/

theorem find_first {α : Type} (p : α → Bool) : ∀ (l : List α) (i : ℕ) (h : i < l.length),
    p (l.get ⟨i, h⟩) = true →
    (∀ j (hj : j < i), p (l.get ⟨j, Nat.lt_trans hj h⟩) = false) →
    l.find? p = some (l.get ⟨i, h⟩) := by
  intro l
  induction l with
  | nil =>
    intro i h
    simp at h
  | cons a as ih =>
    intro i h hp hmin
    cases i with
    | zero =>
      simp only [List.get] at hp ⊢
      rw [List.find?_cons_of_pos _ hp]
    | succ i =>
      have ha : p a = false := hmin 0 (Nat.succ_pos i)
      rw [List.find?_cons_of_neg _ (by simp [ha])]
      simp only [List.get] at hp ⊢
      exact ih i (Nat.lt_of_succ_lt_succ h) hp
        (fun j hj => hmin (j + 1) (Nat.succ_lt_succ hj))

theorem track_matches_iff (bounding_box : BBox) (frame_number : ℤ) (d : PersonTrackingData) :
    track_matches bounding_box frame_number d = true ↔
      claim_match bounding_box frame_number d := by
  unfold track_matches claim_match boxes_within MAX_TRACKING_DISTANCE_PIXELS
  cases hl : d.position_history.getLast? with
  | none => simp [hl]
  | some last => simp [hl]

/-! ### Helper lemmas: the alert store -/

theorem add_alert_eq (store : List TheftAlert) (a : TheftAlert) :
    add_alert store a = (store ++ [a]).drop ((store.length + 1) - MAX_RECENT_ALERTS) := by
  unfold add_alert
  simp only [List.length_append, List.length_singleton, List.length_cons, List.length_nil]
  by_cases h : MAX_RECENT_ALERTS < store.length + 1
  · rw [if_pos h]
  · rw [if_neg h]
    have h0 : store.length + 1 - MAX_RECENT_ALERTS = 0 := by omega
    rw [h0, List.drop_zero]

theorem add_alert_length_le (store : List TheftAlert) (a : TheftAlert)
    (h : store.length ≤ MAX_RECENT_ALERTS) :
    (add_alert store a).length ≤ MAX_RECENT_ALERTS := by
  rw [add_alert_eq]
  simp only [List.length_drop, List.length_append, List.length_singleton, List.length_cons, List.length_nil]
  have hm : 0 < MAX_RECENT_ALERTS := by
    unfold MAX_RECENT_ALERTS
    omega
  omega

theorem add_alert_of_lt (store : List TheftAlert) (a : TheftAlert)
    (h : store.length < MAX_RECENT_ALERTS) :
    add_alert store a = store ++ [a] := by
  rw [add_alert_eq]
  have h0 : store.length + 1 - MAX_RECENT_ALERTS = 0 := by omega
  rw [h0, List.drop_zero]

theorem fold_add_alert : ∀ (l : List TheftAlert) (store : List TheftAlert),
    store.length ≤ MAX_RECENT_ALERTS →
    l.foldl add_alert store =
      (store ++ l).drop ((store.length + l.length) - MAX_RECENT_ALERTS) := by
  intro l
  induction l with
  | nil =>
    intro store h
    simp only [List.foldl_nil, List.length_nil, List.append_nil, Nat.add_zero]
    have h0 : store.length - MAX_RECENT_ALERTS = 0 := by omega
    rw [h0, List.drop_zero]
  | cons a l ih =>
    intro store h
    simp only [List.foldl_cons]
    rw [ih (add_alert store a) (add_alert_length_le store a h)]
    rw [add_alert_eq]
    by_cases hlt : store.length < MAX_RECENT_ALERTS
    · have h0 : store.length + 1 - MAX_RECENT_ALERTS = 0 := by omega
      rw [h0, List.drop_zero, List.append_assoc]
      simp only [List.singleton_append]
      congr 1
      simp only [List.length_append, List.length_singleton, List.length_cons, List.length_nil, List.length_cons]
      omega
    · have h1 : store.length + 1 - MAX_RECENT_ALERTS = 1 := by omega
      rw [h1]
      have hle : (1 : ℕ) ≤ (store ++ [a]).length := by
        simp only [List.length_append, List.length_singleton, List.length_cons, List.length_nil]
        omega
      rw [← List.drop_append_of_le_length hle, List.drop_drop, List.append_assoc]
      simp only [List.singleton_append]
      congr 1
      simp only [List.length_drop, List.length_append, List.length_singleton, List.length_cons, List.length_nil,
        List.length_cons]
      omega

theorem create_alert_valid (store : List TheftAlert) (now : ℕ) (p : AlertParams)
    (h : valid_params p) :
    create_alert store now p = (Except.ok (alert_of now p), add_alert store (alert_of now p)) := by
  obtain ⟨h1, h2, h3⟩ := h
  unfold create_alert mk_theft_alert validate_severity_level validate_confidence_score
  rw [if_pos h1, if_pos ⟨h2, h3⟩]

theorem mk_theft_alert_ok (now : ℕ) (p : AlertParams) (a : TheftAlert)
    (h : mk_theft_alert now p = Except.ok a) : a = alert_of now p := by
  unfold mk_theft_alert at h
  split at h
  · exact absurd h (by simp)
  · split at h
    · exact absurd h (by simp)
    · injection h with h1
      exact h1.symm

theorem create_alert_pair (store : List TheftAlert) (now : ℕ) (p : AlertParams)
    (r : Except ValidationError TheftAlert) (s : List TheftAlert)
    (h : create_alert store now p = (r, s)) :
    (∃ e, r = Except.error e ∧ s = store) ∨
    (r = Except.ok (alert_of now p) ∧ s = add_alert store (alert_of now p)) := by
  unfold create_alert at h
  split at h
  · rename_i e heq
    left
    injection h with h1 h2
    exact ⟨e, h1.symm, h2.symm⟩
  · rename_i a heq
    right
    have ha := mk_theft_alert_ok now p a heq
    injection h with h1 h2
    subst ha
    exact ⟨h1.symm, h2.symm⟩

/-! ### Helper lemmas: the store only grows by the returned alerts -/

theorem check_restricted_store (store : List TheftAlert) (now : ℕ) (z : DetectionZone)
    (bbox : BBox) (conf : ℚ) (img : String) (oa : Option TheftAlert) (s1 : List TheftAlert)
    (h : check_restricted_area_violation store now z bbox conf img = (Except.ok oa, s1)) :
    s1 = oa.toList.foldl add_alert store := by
  unfold check_restricted_area_violation at h
  split at h
  · split at h
    · exact absurd (congrArg Prod.fst h) (by simp)
    · rename_i a s heq
      rcases create_alert_pair _ _ _ _ _ heq with ⟨e, he, _⟩ | ⟨hr, hs⟩
      · exact absurd he (by simp)
      · injection h with h1 h2
        injection h1 with h1
        subst h1 h2 hs
        injection hr with hr
        subst hr
        rfl
  · injection h with h1 h2
    injection h1 with h1
    subst h1 h2
    rfl

theorem check_loitering_store (store : List TheftAlert) (now : ℕ) (tracker : TrackerState)
    (z : DetectionZone) (pid : String) (bbox : BBox) (f : ℤ) (img : String)
    (ob : Option TheftAlert) (s1 : List TheftAlert)
    (h : check_loitering_violation store now tracker z pid bbox f img = (Except.ok ob, s1)) :
    s1 = ob.toList.foldl add_alert store := by
  unfold check_loitering_violation at h
  split at h
  · injection h with h1 h2
    injection h1 with h1
    subst h1 h2
    rfl
  · split at h
    · injection h with h1 h2
      injection h1 with h1
      subst h1 h2
      rfl
    · split at h
      · injection h with h1 h2
        injection h1 with h1
        subst h1 h2
        rfl
      · split at h
        · exact absurd (congrArg Prod.fst h) (by simp)
        · rename_i a s heq
          rcases create_alert_pair _ _ _ _ _ heq with ⟨e, he, _⟩ | ⟨hr, hs⟩
          · exact absurd he (by simp)
          · injection h with h1 h2
            injection h1 with h1
            subst h1 h2 hs
            injection hr with hr
            subst hr
            rfl

theorem analyze_one_person_store (zones : List DetectionZone) (tracker : TrackerState)
    (store : List TheftAlert) (now : ℕ) (p : DetectedPerson) (img : String) (f : ℤ)
    (as1 : List TheftAlert) (s1 : List TheftAlert) (t1 : TrackerState)
    (h : analyze_one_person zones tracker store now p img f = (Except.ok as1, s1, t1)) :
    s1 = as1.foldl add_alert store := by
  unfold analyze_one_person at h
  dsimp only at h
  split at h
  · injection h with h1 h2
    injection h2 with h2 h3
    injection h1 with h1
    subst h1 h2
    rfl
  · split at h
    · exact absurd (congrArg (fun q => q.1) h) (by simp)
    · rename_i oa sa heqa
      split at h
      · exact absurd (congrArg (fun q => q.1) h) (by simp)
      · rename_i ob sb heqb
        injection h with h1 h2
        injection h2 with h2 h3
        injection h1 with h1
        subst h1 h2
        rw [List.foldl_append]
        rw [← check_restricted_store _ _ _ _ _ _ _ _ heqa]
        exact check_loitering_store _ _ _ _ _ _ _ _ _ _ heqb

theorem analyze_people_go_store (zones : List DetectionZone) (now : ℕ) (img : String)
    (f : ℤ) : ∀ (ps : List DetectedPerson) (tracker : TrackerState) (store : List TheftAlert)
    (A : List TheftAlert) (s1 : List TheftAlert) (t1 : TrackerState),
    analyze_people_go zones now img f ps tracker store = (Except.ok A, s1, t1) →
    s1 = A.foldl add_alert store := by
  intro ps
  induction ps with
  | nil =>
    intro tracker store A s1 t1 h
    unfold analyze_people_go at h
    injection h with h1 h2
    injection h2 with h2 h3
    injection h1 with h1
    subst h1 h2
    rfl
  | cons p rest ih =>
    intro tracker store A s1 t1 h
    unfold analyze_people_go at h
    split at h
    · exact absurd (congrArg (fun q => q.1) h) (by simp)
    · rename_i as1 sa ta heqa
      split at h
      · exact absurd (congrArg (fun q => q.1) h) (by simp)
      · rename_i as2 sb tb heqb
        injection h with h1 h2
        injection h2 with h2 h3
        injection h1 with h1
        subst h1 h2
        rw [List.foldl_append]
        rw [← analyze_one_person_store _ _ _ _ _ _ _ _ _ _ heqa]
        exact ih _ _ _ _ _ heqb

theorem analyze_people_store (zones : List DetectionZone) (tracker : TrackerState)
    (store : List TheftAlert) (now : ℕ) (result : DetectionResult) (img : String) (f : ℤ)
    (A : List TheftAlert) (s1 : List TheftAlert) (t1 : TrackerState)
    (h : analyze_people zones tracker store now result img f = (Except.ok A, s1, t1)) :
    s1 = A.foldl add_alert store := by
  unfold analyze_people at h
  split at h
  · injection h with h1 h2
    injection h2 with h2 h3
    injection h1 with h1
    subst h1 h2
    rfl
  · injection h with h1 h2
    injection h2 with h2 h3
    injection h1 with h1
    subst h1 h2
    rfl
  · exact analyze_people_go_store _ _ _ _ _ _ _ _ _ _ h

/-! ### Helper lemmas: concealment patterns, tracker lookups, traces -/

theorem detect_eq_head (tags : List String) :
    detect_concealment_patterns tags =
      ((matching_patterns tags).head?).map (fun pat => pat.2) := by
  unfold detect_concealment_patterns matching_patterns
  rw [List.filter_head?]

theorem get_tracking_data_fresh (s : TrackerState) (bbox : BBox) (f : ℤ)
    (hfresh : ∀ pd ∈ s.tracked_people, pd.1 ≠ person_id_str s.next_person_id) :
    get_tracking_data (create_new_track s bbox f).2 (person_id_str s.next_person_id) =
      some ⟨person_id_str s.next_person_id, f, f, [bbox]⟩ := by
  unfold get_tracking_data create_new_track
  simp only
  rw [List.find?_append]
  have hnone : s.tracked_people.find?
      (fun pd => decide (pd.1 = person_id_str s.next_person_id)) = none := by
    rw [List.find?_eq_none]
    intro pd hpd
    simp [hfresh pd hpd]
  rw [hnone]
  simp

theorem tracker_step_inv (st : TrackerState × List String) (op : TrackerOp)
    (hinv : ∀ id ∈ st.2, ∃ k, k < st.1.next_person_id ∧ id = person_id_str k) :
    ∀ id ∈ (tracker_step st op).2,
      ∃ k, k < (tracker_step st op).1.next_person_id ∧ id = person_id_str k := by
  cases op with
  | track bbox f =>
    unfold tracker_step
    cases hm : find_matching_track st.1 bbox f with
    | none =>
      simp only
      unfold track_person
      rw [hm]
      intro id hid
      rcases List.mem_append.mp hid with hold | hnew
      · obtain ⟨k, hk, hk2⟩ := hinv id hold
        exact ⟨k, by simp [create_new_track]; omega, hk2⟩
      · have : id = person_id_str st.1.next_person_id := by simpa [create_new_track] using hnew
        exact ⟨st.1.next_person_id, by simp [create_new_track], this⟩
    | some pid =>
      simp only
      unfold track_person
      rw [hm]
      intro id hid
      obtain ⟨k, hk, hk2⟩ := hinv id hid
      exact ⟨k, by simpa [update_track] using hk, hk2⟩
  | cleanup cur maxAge =>
    unfold tracker_step
    intro id hid
    obtain ⟨k, hk, hk2⟩ := hinv id hid
    exact ⟨k, by simpa [cleanup_old_tracks] using hk, hk2⟩

theorem foldl_tracker_inv : ∀ (l : List TrackerOp) (st : TrackerState × List String),
    (∀ id ∈ st.2, ∃ k, k < st.1.next_person_id ∧ id = person_id_str k) →
    ∀ id ∈ (l.foldl tracker_step st).2,
      ∃ k, k < (l.foldl tracker_step st).1.next_person_id ∧ id = person_id_str k := by
  intro l
  induction l with
  | nil => intro st h; exact h
  | cons op rest ih =>
    intro st h
    exact ih (tracker_step st op) (tracker_step_inv st op h)

theorem run_tracker_inv (ops : List TrackerOp) :
    ∀ id ∈ (run_tracker ops).2,
      ∃ k, k < (run_tracker ops).1.next_person_id ∧ id = person_id_str k := by
  unfold run_tracker
  exact foldl_tracker_inv ops (⟨[], 0⟩, []) (by intro id hid; simp at hid)

theorem run_creates_eq_fold : ∀ (ps : List AlertParams) (store : List TheftAlert) (now : ℕ),
    (∀ p ∈ ps, valid_params p) →
    run_creates store now ps = (ps.map (alert_of now)).foldl add_alert store := by
  intro ps
  induction ps with
  | nil =>
    intro store now _
    rfl
  | cons p rest ih =>
    intro store now hv
    unfold run_creates
    rw [create_alert_valid store now p (hv p (by simp))]
    simp only [List.map_cons, List.foldl_cons]
    exact ih _ now (fun q hq => hv q (by simp [hq]))

/-! ### Claim C5 -/

/-- Claim C5: point_in_polygon returns false (without raising) for every
polygon with fewer than 3 vertices, and on the square
[(0,0),(100,0),(100,100),(0,100)] it returns true at (50,50), (10,10), (90,90)
and false at (150,50), (50,150), (-10,50). -/
theorem c5_point_in_polygon_spec :
    (∀ (point : ℚ × ℚ) (polygon : List (ℚ × ℚ)), polygon.length < 3 →
        point_in_polygon point polygon = false) ∧
    point_in_polygon (50, 50) [(0, 0), (100, 0), (100, 100), (0, 100)] = true ∧
    point_in_polygon (10, 10) [(0, 0), (100, 0), (100, 100), (0, 100)] = true ∧
    point_in_polygon (90, 90) [(0, 0), (100, 0), (100, 100), (0, 100)] = true ∧
    point_in_polygon (150, 50) [(0, 0), (100, 0), (100, 100), (0, 100)] = false ∧
    point_in_polygon (50, 150) [(0, 0), (100, 0), (100, 100), (0, 100)] = false ∧
    point_in_polygon (-10, 50) [(0, 0), (100, 0), (100, 100), (0, 100)] = false := by
  refine ⟨fun point polygon h => ?_, by decide, by decide, by decide, by decide,
    by decide, by decide⟩
  unfold point_in_polygon
  rw [if_pos h]

/-- Witness for C5: the degenerate two-vertex polygon is rejected. -/
theorem c5_point_in_polygon_witness :
    point_in_polygon (5, 5) [(0, 0), (10, 0)] = false :=
  c5_point_in_polygon_spec.1 (5, 5) [(0, 0), (10, 0)] (by decide)

/-! ### Claim C6 -/

/-- Claim C6: the alert store keeps at most 100 alerts, oldest evicted first:
after 105 successful create_alert calls on a fresh store the retained
collection is exactly the last 100 created alerts in creation order. -/
theorem c6_alert_store_cap (now : ℕ) (ps : List AlertParams)
    (hlen : ps.length = 105) (hv : ∀ p ∈ ps, valid_params p) :
    run_creates [] now ps = (ps.map (alert_of now)).drop 5 ∧
    (run_creates [] now ps).length = 100 := by
  have h1 : run_creates [] now ps = (ps.map (alert_of now)).foldl add_alert [] :=
    run_creates_eq_fold ps [] now hv
  have h2 := fold_add_alert (ps.map (alert_of now)) []
    (by simp [MAX_RECENT_ALERTS])
  rw [h1, h2]
  simp only [List.nil_append, List.length_nil, Nat.zero_add, List.length_map, hlen,
    List.length_drop]
  constructor
  · rfl
  · rfl

/-- Witness for C6: 105 identical valid alerts leave the last 100. -/
theorem c6_alert_store_cap_witness :
    run_creates [] 0 (List.replicate 105 sample_params) =
      ((List.replicate 105 sample_params).map (alert_of 0)).drop 5 ∧
    (run_creates [] 0 (List.replicate 105 sample_params)).length = 100 :=
  c6_alert_store_cap 0 (List.replicate 105 sample_params) (by simp)
    (by
      intro p hp
      rw [List.eq_of_mem_replicate hp]
      unfold valid_params sample_params
      exact ⟨by decide, by norm_num, by norm_num⟩)

/-! ### Claim C7 -/

/-- Claim C7: create_alert raises a validation failure exactly when confidence
is outside [0,1] or severity is not one of LOW/MEDIUM/HIGH/CRITICAL; a raise
leaves the store untouched, and success appends the returned alert to the
bounded history and returns it. -/
theorem c7_create_alert_validation (store : List TheftAlert) (now : ℕ) (p : AlertParams) :
    ((∃ e, (create_alert store now p).1 = Except.error e) ↔
      (p.confidence < 0 ∨ 1 < p.confidence ∨
        p.severity ∉ (["LOW", "MEDIUM", "HIGH", "CRITICAL"] : List String))) ∧
    (∀ e, (create_alert store now p).1 = Except.error e →
      (create_alert store now p).2 = store) ∧
    (∀ a, (create_alert store now p).1 = Except.ok a →
      a = alert_of now p ∧
      (create_alert store now p).2 = (store ++ [a]).drop ((store.length + 1) - 100)) := by
  by_cases h1 : p.severity ∈ VALID_SEVERITY_LEVELS
  · by_cases h2 : 0 ≤ p.confidence ∧ p.confidence ≤ 1
    · have hc := create_alert_valid store now p ⟨h1, h2.1, h2.2⟩
      rw [hc]
      refine ⟨?_, ?_, ?_⟩
      · constructor
        · rintro ⟨e, he⟩
          exact absurd he (by simp)
        · rintro (hr | hr | hr)
          · exact absurd h2.1 (not_le.mpr hr)
          · exact absurd h2.2 (not_le.mpr hr)
          · exact absurd h1 hr
      · intro e he
        exact absurd he (by simp)
      · intro a ha
        have haa : alert_of now p = a := by
          injection ha
        subst haa
        refine ⟨rfl, ?_⟩
        rw [add_alert_eq]
        rfl
    · have hc : create_alert store now p =
          (Except.error (ValidationError.invalidConfidence p.confidence), store) := by
        unfold create_alert mk_theft_alert validate_severity_level validate_confidence_score
        rw [if_pos h1, if_neg h2]
      rw [hc]
      refine ⟨?_, ?_, ?_⟩
      · constructor
        · intro _
          rcases not_and_or.mp h2 with hlt | hgt
          · exact Or.inl (not_le.mp hlt)
          · exact Or.inr (Or.inl (not_le.mp hgt))
        · intro _
          exact ⟨_, rfl⟩
      · intro e _
        rfl
      · intro a ha
        exact absurd ha (by simp)
  · have hc : create_alert store now p =
        (Except.error (ValidationError.invalidSeverity p.severity), store) := by
      unfold create_alert mk_theft_alert validate_severity_level
      rw [if_neg h1]
    rw [hc]
    refine ⟨?_, ?_, ?_⟩
    · exact ⟨fun _ => Or.inr (Or.inr h1), fun _ => ⟨_, rfl⟩⟩
    · intro e _
      rfl
    · intro a ha
      exact absurd ha (by simp)

/-- Witness for C7: a valid creation appends and returns the alert, and a
creation with confidence 2 fails, leaving the store empty. -/
theorem c7_create_alert_validation_witness :
    ((create_alert [] 0 sample_params).1 = Except.ok (alert_of 0 sample_params) ∧
      (create_alert [] 0 sample_params).2 = [alert_of 0 sample_params]) ∧
    ((∃ e, (create_alert [] 0 ⟨"LOITERING", 2, "Z", "d", "i", [], "MEDIUM"⟩).1 =
        Except.error e) ∧
      (create_alert [] 0 ⟨"LOITERING", 2, "Z", "d", "i", [], "MEDIUM"⟩).2 = []) := by
  constructor
  · have h := c7_create_alert_validation [] 0 sample_params
    have hok : (create_alert [] 0 sample_params).1 = Except.ok (alert_of 0 sample_params) := by
      rw [create_alert_valid [] 0 sample_params
        (by
          unfold valid_params sample_params
          exact ⟨by decide, by norm_num, by norm_num⟩)]
    refine ⟨hok, ?_⟩
    have h2 := (h.2.2 (alert_of 0 sample_params) hok).2
    simpa using h2
  · have h := c7_create_alert_validation [] 0 ⟨"LOITERING", 2, "Z", "d", "i", [], "MEDIUM"⟩
    have herr := h.1.mpr (Or.inr (Or.inl (by norm_num)))
    obtain ⟨e, he⟩ := herr
    exact ⟨⟨e, he⟩, h.2.1 e he⟩

/-! ### Claim C8 -/

/-- Counterexample to C8 as stated: on a one-element store,
get_recent_alerts 0 returns the whole store, not the empty list, because the
Python slice alerts[-0:] is alerts[0:]. -/
theorem c8_zero_count_counterexample :
    get_recent_alerts [alert_of 0 sample_params] (some 0) = [alert_of 0 sample_params] ∧
    get_recent_alerts [alert_of 0 sample_params] (some 0) ≠ ([] : List TheftAlert) := by
  refine ⟨rfl, ?_⟩
  intro h
  simp [get_recent_alerts, py_slice_from] at h

/-- Claim C8 (amended): get_recent_alerts returns all alerts when count is
unspecified and the last count alerts for every count ≥ 1; for count = 0 it
returns the entire store (Python -0 is 0), not the empty list. -/
theorem c8_get_recent_alerts_spec (store : List TheftAlert) :
    get_recent_alerts store none = store ∧
    (∀ c : ℤ, 1 ≤ c →
      get_recent_alerts store (some c) = store.drop (store.length - c.toNat)) ∧
    get_recent_alerts store (some 0) = store := by
  refine ⟨rfl, ?_, ?_⟩
  · intro c hc
    simp only [get_recent_alerts, py_slice_from]
    rw [if_neg (by omega : ¬ (0 : ℤ) ≤ -c)]
    congr 1
    omega
  · unfold get_recent_alerts py_slice_from
    norm_num

/-- Witness for C8: the last two of three alerts. -/
theorem c8_get_recent_alerts_spec_witness :
    get_recent_alerts [alert_of 1 sample_params, alert_of 2 sample_params,
        alert_of 3 sample_params] (some 2) =
      [alert_of 2 sample_params, alert_of 3 sample_params] := by
  have h := (c8_get_recent_alerts_spec [alert_of 1 sample_params, alert_of 2 sample_params,
    alert_of 3 sample_params]).2.1 2 (by norm_num)
  simpa using h

/-! ### Claim C9 -/

/-- Claim C9: person ids are never reused.  After any trace of track_person
and cleanup_old_tracks operations from a fresh tracker, a track_person call
that creates a new track returns an id distinct from every id the tracker has
ever issued, because the internal counter only increases. -/
theorem c9_person_ids_never_reused (ops : List TrackerOp) (bounding_box : BBox) (f : ℤ)
    (hnew : find_matching_track (run_tracker ops).1 bounding_box f = none) :
    (track_person (run_tracker ops).1 bounding_box f).1 ∉ (run_tracker ops).2 := by
  intro hmem
  obtain ⟨k, hk, hk2⟩ := run_tracker_inv ops _ hmem
  have h1 : (track_person (run_tracker ops).1 bounding_box f).1 =
      person_id_str (run_tracker ops).1.next_person_id := by
    unfold track_person
    rw [hnew]
    rfl
  rw [h1] at hk2
  have := person_id_str_inj hk2
  omega

/-- Witness for C9: after tracking one person and cleaning up the stale track,
a new first sighting gets the fresh id, never the already-issued one. -/
theorem c9_person_ids_never_reused_witness :
    (track_person
        (run_tracker [TrackerOp.track ⟨0, 0, 10, 10⟩ 0, TrackerOp.cleanup 400 300]).1
        ⟨500, 500, 10, 10⟩ 400).1 ∉
      (run_tracker [TrackerOp.track ⟨0, 0, 10, 10⟩ 0, TrackerOp.cleanup 400 300]).2 :=
  c9_person_ids_never_reused [TrackerOp.track ⟨0, 0, 10, 10⟩ 0, TrackerOp.cleanup 400 300]
    ⟨500, 500, 10, 10⟩ 400 (by decide)

/-! ### Claim C1 -/

theorem behavior_patterns_eval (store : List TheftAlert) (now : ℕ)
    (po : Option (List DetectedPerson)) (oo : Option (List DetectedObject))
    (ts : List SceneTag) (img : String) (pat : List String × String)
    (hfirst : (matching_patterns
        ((ts.filter fun t => decide (t.confidence > MIN_CONFIDENCE)).map
          (fun t => t.name))).head? = some pat) :
    analyze_behavior_patterns store now ⟨po, oo, some ts⟩ img =
      (Except.ok [alert_of now ⟨"CONCEALMENT_PATTERN", CONCEALMENT_CONFIDENCE, "Unknown",
          pat.2, img, [], "MEDIUM"⟩],
       add_alert store (alert_of now ⟨"CONCEALMENT_PATTERN", CONCEALMENT_CONFIDENCE,
          "Unknown", pat.2, img, [], "MEDIUM"⟩)) := by
  cases ts with
  | nil =>
    have h0 : (matching_patterns
        ((([] : List SceneTag).filter fun t => decide (t.confidence > MIN_CONFIDENCE)).map
          (fun t => t.name))).head? = (none : Option (List String × String)) := rfl
    rw [h0] at hfirst
    exact Option.noConfusion hfirst
  | cons t ts0 =>
    unfold analyze_behavior_patterns
    simp only [detect_eq_head, hfirst, Option.map_some']
    rw [create_alert_valid store now
      ⟨"CONCEALMENT_PATTERN", CONCEALMENT_CONFIDENCE, "Unknown", pat.2, img, [], "MEDIUM"⟩
      ⟨by show "MEDIUM" ∈ VALID_SEVERITY_LEVELS; decide,
       by show (0 : ℚ) ≤ CONCEALMENT_CONFIDENCE; norm_num [CONCEALMENT_CONFIDENCE],
       by show CONCEALMENT_CONFIDENCE ≤ (1 : ℚ); norm_num [CONCEALMENT_CONFIDENCE]⟩]

/-- Counterexample to C1 as stated: a frame whose high-confidence tags match
two suspicious combinations (person/bag/clothing and
person/backpack/electronics) produces a single CONCEALMENT_PATTERN alert, not
one alert per matching combination — detect_concealment_patterns returns from
its loop at the first match. -/
theorem c1_multiple_combinations_counterexample :
    (matching_patterns ["person", "bag", "clothing", "backpack", "electronics"]).length = 2 ∧
    (analyze_behavior_patterns [] 0
        ⟨none, none, some [⟨"person", 9 / 10⟩, ⟨"bag", 9 / 10⟩, ⟨"clothing", 9 / 10⟩,
          ⟨"backpack", 9 / 10⟩, ⟨"electronics", 9 / 10⟩]⟩ "img").1.toOption.map
        List.length = some 1 := by
  have hfilter : ((([⟨"person", 9 / 10⟩, ⟨"bag", 9 / 10⟩, ⟨"clothing", 9 / 10⟩,
      ⟨"backpack", 9 / 10⟩, ⟨"electronics", 9 / 10⟩] : List SceneTag).filter
        fun t => decide (t.confidence > MIN_CONFIDENCE)).map (fun t => t.name)) =
      ["person", "bag", "clothing", "backpack", "electronics"] := by
    norm_num [MIN_CONFIDENCE, List.filter_cons]
  constructor
  · decide
  · rw [behavior_patterns_eval [] 0 none none _ "img"
      (["person", "bag", "clothing"], "Person with bag near clothing")
      (by rw [hfilter]; decide)]
    rfl

/-- Claim C1 (amended): when at least one suspicious tag combination matches
the frame's high-confidence tags, exactly one CONCEALMENT_PATTERN alert is
produced, for the first matching combination in the predefined order, with
confidence 0.70 and severity MEDIUM; later matching combinations do not fire. -/
theorem c1_concealment_single_alert (store : List TheftAlert) (now : ℕ)
    (po : Option (List DetectedPerson)) (oo : Option (List DetectedObject))
    (ts : List SceneTag) (img : String) (pat : List String × String)
    (hfirst : (matching_patterns
        ((ts.filter fun t => decide (t.confidence > MIN_CONFIDENCE)).map
          (fun t => t.name))).head? = some pat) :
    ∃ a, analyze_behavior_patterns store now ⟨po, oo, some ts⟩ img =
        (Except.ok [a], add_alert store a) ∧
      a.alert_type = "CONCEALMENT_PATTERN" ∧ a.confidence = 7 / 10 ∧
      a.severity = "MEDIUM" ∧ a.description = pat.2 ∧ a.location = "Unknown" := by
  refine ⟨alert_of now ⟨"CONCEALMENT_PATTERN", CONCEALMENT_CONFIDENCE, "Unknown", pat.2,
    img, [], "MEDIUM"⟩, ?_, rfl, by norm_num [alert_of, CONCEALMENT_CONFIDENCE], rfl, rfl, rfl⟩
  exact behavior_patterns_eval store now po oo ts img pat hfirst

/-- Witness for C1 (amended): the two-combination frame fires only the first
pattern's description. -/
theorem c1_concealment_single_alert_witness :
    ∃ a, analyze_behavior_patterns [] 5
        ⟨none, none, some [⟨"person", 7 / 10⟩, ⟨"bag", 7 / 10⟩, ⟨"clothing", 7 / 10⟩,
          ⟨"backpack", 7 / 10⟩, ⟨"electronics", 7 / 10⟩]⟩ "frame.jpg" =
        (Except.ok [a], add_alert [] a) ∧
      a.alert_type = "CONCEALMENT_PATTERN" ∧ a.confidence = 7 / 10 ∧
      a.severity = "MEDIUM" ∧ a.description = "Person with bag near clothing" ∧
      a.location = "Unknown" :=
  c1_concealment_single_alert [] 5 none none
    [⟨"person", 7 / 10⟩, ⟨"bag", 7 / 10⟩, ⟨"clothing", 7 / 10⟩, ⟨"backpack", 7 / 10⟩,
     ⟨"electronics", 7 / 10⟩] "frame.jpg"
    (["person", "bag", "clothing"], "Person with bag near clothing")
    (by
      have hfilter : ((([⟨"person", 7 / 10⟩, ⟨"bag", 7 / 10⟩, ⟨"clothing", 7 / 10⟩,
          ⟨"backpack", 7 / 10⟩, ⟨"electronics", 7 / 10⟩] : List SceneTag).filter
            fun t => decide (t.confidence > MIN_CONFIDENCE)).map (fun t => t.name)) =
          ["person", "bag", "clothing", "backpack", "electronics"] := by
        norm_num [MIN_CONFIDENCE, List.filter_cons]
      rw [hfilter]
      decide)

/-! ### Claim C2 -/

theorem check_loitering_first_sighting (store : List TheftAlert) (now : ℕ)
    (tracker : TrackerState) (bbox : BBox) (f : ℤ) (img : String) (z : DetectionZone)
    (hfresh : ∀ pd ∈ tracker.tracked_people, pd.1 ≠ person_id_str tracker.next_person_id)
    (hloit : z.alert_on_loitering = true) :
    check_loitering_violation store now (create_new_track tracker bbox f).2 z
        (person_id_str tracker.next_person_id) bbox f img =
      (if z.max_loiter_seconds < 0
       then (Except.ok (some (alert_of now ⟨"LOITERING", 17 / 20, z.name,
              "Person loitering in " ++ z.name, img, [bbox], "MEDIUM"⟩)),
             add_alert store (alert_of now ⟨"LOITERING", 17 / 20, z.name,
              "Person loitering in " ++ z.name, img, [bbox], "MEDIUM"⟩))
       else (Except.ok none, store)) := by
  unfold check_loitering_violation
  simp only [hloit, Bool.not_true]
  rw [if_neg (show ¬(false = true) by simp)]
  rw [get_tracking_data_fresh tracker bbox f hfresh]
  unfold should_alert_for_loitering
  dsimp only
  have hdw : calculate_dwell_time ⟨person_id_str tracker.next_person_id, f, f, [bbox]⟩ f
      DEFAULT_FPS = 0 := by
    unfold calculate_dwell_time
    simp
  rw [hdw]
  by_cases hm : z.max_loiter_seconds < 0
  · rw [if_pos hm]
    have hd : decide ((0 : ℚ) > z.max_loiter_seconds) = true := decide_eq_true hm
    rw [hd]
    rw [if_neg (show ¬((!true) = true) by simp)]
    rw [create_alert_valid store now
      ⟨"LOITERING", 17 / 20, z.name, "Person loitering in " ++ z.name, img, [bbox], "MEDIUM"⟩
      ⟨by show "MEDIUM" ∈ VALID_SEVERITY_LEVELS; decide,
       by show (0 : ℚ) ≤ 17 / 20; norm_num,
       by show (17 : ℚ) / 20 ≤ 1; norm_num⟩]
  · rw [if_neg hm]
    have hd : decide ((0 : ℚ) > z.max_loiter_seconds) = false := decide_eq_false hm
    rw [hd]
    rw [if_pos (show (!false) = true by simp)]

theorem analyze_one_person_first_sighting (zones : List DetectionZone)
    (tracker : TrackerState) (store : List TheftAlert) (now : ℕ) (p : DetectedPerson)
    (img : String) (f : ℤ) (z : DetectionZone)
    (hne : find_matching_track tracker p.bounding_box f = none)
    (hfresh : ∀ pd ∈ tracker.tracked_people, pd.1 ≠ person_id_str tracker.next_person_id)
    (hz : find_zone_for_bounding_box zones p.bounding_box = some z)
    (hrest : z.is_restricted = false)
    (hloit : z.alert_on_loitering = true) :
    analyze_one_person zones tracker store now p img f =
      (if z.max_loiter_seconds < 0
       then (Except.ok [alert_of now ⟨"LOITERING", 17 / 20, z.name,
              "Person loitering in " ++ z.name, img, [p.bounding_box], "MEDIUM"⟩],
             add_alert store (alert_of now ⟨"LOITERING", 17 / 20, z.name,
              "Person loitering in " ++ z.name, img, [p.bounding_box], "MEDIUM"⟩),
             (track_person tracker p.bounding_box f).2)
       else (Except.ok [], store, (track_person tracker p.bounding_box f).2)) := by
  have htp : track_person tracker p.bounding_box f =
      create_new_track tracker p.bounding_box f := by
    unfold track_person
    rw [hne]
  have hcr : check_restricted_area_violation store now z p.bounding_box p.confidence img =
      (Except.ok none, store) := by
    unfold check_restricted_area_violation
    rw [if_neg (show ¬(z.is_restricted = true) by simp [hrest])]
  have hfst : (create_new_track tracker p.bounding_box f).1 =
      person_id_str tracker.next_person_id := rfl
  unfold analyze_one_person
  dsimp only
  rw [hz]
  dsimp only
  rw [hcr]
  dsimp only
  rw [htp, hfst]
  rw [check_loitering_first_sighting store now tracker p.bounding_box f img z hfresh hloit]
  by_cases hm : z.max_loiter_seconds < 0
  · rw [if_pos hm, if_pos hm]
    rfl
  · rw [if_neg hm, if_neg hm]
    rfl

/-- Counterexample to C2 as stated: in a zone with alert_on_loitering = true
and max_loiter_seconds = -1, the very first sighting of a person DOES produce
a LOITERING alert — the tracking record created by track_person already exists
when _check_loitering_violation looks it up, so the rule is not skipped. -/
theorem c2_first_sighting_counterexample :
    analyze_one_person [test_loiter_zone] ⟨[], 0⟩ [] 0
        ⟨⟨100, 100, 50, 100⟩, 9 / 10⟩ "img" 0 =
      (Except.ok [alert_of 0 ⟨"LOITERING", 17 / 20, "Lobby", "Person loitering in Lobby",
        "img", [⟨100, 100, 50, 100⟩], "MEDIUM"⟩],
       add_alert [] (alert_of 0 ⟨"LOITERING", 17 / 20, "Lobby", "Person loitering in Lobby",
        "img", [⟨100, 100, 50, 100⟩], "MEDIUM"⟩),
       (track_person ⟨[], 0⟩ ⟨100, 100, 50, 100⟩ 0).2) := by
  have hz : find_zone_for_bounding_box [test_loiter_zone] ⟨100, 100, 50, 100⟩ =
      some test_loiter_zone := by
    unfold find_zone_for_bounding_box find_zone_for_point calculate_bounding_box_center
    norm_num [py_int, zone_contains_point, test_loiter_zone, point_in_polygon,
      is_point_on_ray, List.rotate, List.find?, decide_eq_true_eq]
  have h := analyze_one_person_first_sighting [test_loiter_zone] ⟨[], 0⟩ [] 0
    ⟨⟨100, 100, 50, 100⟩, 9 / 10⟩ "img" 0 test_loiter_zone rfl
    (by intro pd hpd; simp at hpd) hz rfl rfl
  rw [h]
  rw [if_pos (show test_loiter_zone.max_loiter_seconds < 0 by norm_num [test_loiter_zone])]
  rfl

/-- Claim C2 (amended): on a person's very first sighting the tracking record
already exists (track_person creates it before the loitering check), so the
loitering rule IS evaluated; the dwell time on that frame is 0, hence no
LOITERING alert is produced exactly when max_loiter_seconds ≥ 0, while a zone
with alert_on_loitering = true and max_loiter_seconds < 0 produces a LOITERING
alert on the first sighting. -/
theorem c2_loitering_on_first_sighting (zones : List DetectionZone)
    (tracker : TrackerState) (store : List TheftAlert) (now : ℕ) (p : DetectedPerson)
    (img : String) (f : ℤ) (z : DetectionZone)
    (hne : find_matching_track tracker p.bounding_box f = none)
    (hfresh : ∀ pd ∈ tracker.tracked_people, pd.1 ≠ person_id_str tracker.next_person_id)
    (hz : find_zone_for_bounding_box zones p.bounding_box = some z)
    (hrest : z.is_restricted = false)
    (hloit : z.alert_on_loitering = true) :
    (0 ≤ z.max_loiter_seconds →
      analyze_one_person zones tracker store now p img f =
        (Except.ok [], store, (track_person tracker p.bounding_box f).2)) ∧
    (z.max_loiter_seconds < 0 →
      analyze_one_person zones tracker store now p img f =
        (Except.ok [alert_of now ⟨"LOITERING", 17 / 20, z.name,
            "Person loitering in " ++ z.name, img, [p.bounding_box], "MEDIUM"⟩],
         add_alert store (alert_of now ⟨"LOITERING", 17 / 20, z.name,
            "Person loitering in " ++ z.name, img, [p.bounding_box], "MEDIUM"⟩),
         (track_person tracker p.bounding_box f).2)) := by
  have h := analyze_one_person_first_sighting zones tracker store now p img f z hne hfresh
    hz hrest hloit
  constructor
  · intro hge
    rw [h, if_neg (not_lt.mpr hge)]
  · intro hlt
    rw [h, if_pos hlt]

/-- Witness for C2 (amended): both branches at concrete zones — no alert on
first sighting for the spec's default-style threshold, an alert for the
negative threshold. -/
theorem c2_loitering_on_first_sighting_witness :
    analyze_one_person [test_loiter_zone] ⟨[], 0⟩ [] 7
        ⟨⟨200, 200, 50, 100⟩, 9 / 10⟩ "shot.jpg" 3 =
      (Except.ok [alert_of 7 ⟨"LOITERING", 17 / 20, "Lobby", "Person loitering in Lobby",
        "shot.jpg", [⟨200, 200, 50, 100⟩], "MEDIUM"⟩],
       add_alert [] (alert_of 7 ⟨"LOITERING", 17 / 20, "Lobby", "Person loitering in Lobby",
        "shot.jpg", [⟨200, 200, 50, 100⟩], "MEDIUM"⟩),
       (track_person ⟨[], 0⟩ ⟨200, 200, 50, 100⟩ 3).2) := by
  have hz : find_zone_for_bounding_box [test_loiter_zone] ⟨200, 200, 50, 100⟩ =
      some test_loiter_zone := by
    unfold find_zone_for_bounding_box find_zone_for_point calculate_bounding_box_center
    norm_num [py_int, zone_contains_point, test_loiter_zone, point_in_polygon,
      is_point_on_ray, List.rotate, List.find?, decide_eq_true_eq]
  have h := (c2_loitering_on_first_sighting [test_loiter_zone] ⟨[], 0⟩ [] 7
    ⟨⟨200, 200, 50, 100⟩, 9 / 10⟩ "shot.jpg" 3 test_loiter_zone rfl
    (by intro pd hpd; simp at hpd) hz rfl rfl).2
    (show test_loiter_zone.max_loiter_seconds < 0 by norm_num [test_loiter_zone])
  exact h

/-! ### Claim C3 -/

/-- Claim C3: track_person returns the id of an existing tracked person
exactly when some tracked person was last seen on frame f-1 within strictly
100 pixels (Euclidean, between centers) of the new box, choosing the first
such person in iteration order; otherwise it returns the fresh id
person_<next counter> and creates a record with first_frame = last_frame = f
and history [bbox]. -/
theorem c3_track_person_spec (s : TrackerState) (bounding_box : BBox) (f : ℤ)
    (hid : ∀ pd ∈ s.tracked_people, ∃ k, k < s.next_person_id ∧ pd.1 = person_id_str k) :
    ((∃ pd ∈ s.tracked_people, claim_match bounding_box f pd.2) ↔
      (track_person s bounding_box f).1 ∈ s.tracked_people.map Prod.fst) ∧
    (∀ i (h : i < s.tracked_people.length),
      claim_match bounding_box f (s.tracked_people.get ⟨i, h⟩).2 →
      (∀ j (hj : j < i), ¬ claim_match bounding_box f
        (s.tracked_people.get ⟨j, Nat.lt_trans hj h⟩).2) →
      (track_person s bounding_box f).1 = (s.tracked_people.get ⟨i, h⟩).1) ∧
    ((∀ pd ∈ s.tracked_people, ¬ claim_match bounding_box f pd.2) →
      (track_person s bounding_box f).1 = person_id_str s.next_person_id ∧
      (track_person s bounding_box f).1 ∉ s.tracked_people.map Prod.fst ∧
      (track_person s bounding_box f).2.tracked_people =
        s.tracked_people ++ [(person_id_str s.next_person_id,
          ⟨person_id_str s.next_person_id, f, f, [bounding_box]⟩)] ∧
      (track_person s bounding_box f).2.next_person_id = s.next_person_id + 1) := by
  have Hnomatch : (∀ pd ∈ s.tracked_people, ¬ claim_match bounding_box f pd.2) →
      (track_person s bounding_box f).1 = person_id_str s.next_person_id ∧
      (track_person s bounding_box f).1 ∉ s.tracked_people.map Prod.fst ∧
      (track_person s bounding_box f).2.tracked_people =
        s.tracked_people ++ [(person_id_str s.next_person_id,
          ⟨person_id_str s.next_person_id, f, f, [bounding_box]⟩)] ∧
      (track_person s bounding_box f).2.next_person_id = s.next_person_id + 1 := by
    intro hall
    have hnone : s.tracked_people.find?
        (fun pd => track_matches bounding_box f pd.2) = none := by
      rw [List.find?_eq_none]
      intro pd hpd hTM
      exact hall pd hpd ((track_matches_iff bounding_box f pd.2).mp hTM)
    have hne : find_matching_track s bounding_box f = none := by
      unfold find_matching_track
      rw [hnone]
      rfl
    have htp : track_person s bounding_box f = create_new_track s bounding_box f := by
      unfold track_person
      rw [hne]
    rw [htp]
    refine ⟨rfl, ?_, rfl, rfl⟩
    intro hmem
    obtain ⟨pd, hpd, hfst⟩ := List.mem_map.mp hmem
    obtain ⟨k, hk, hk2⟩ := hid pd hpd
    have : person_id_str k = person_id_str s.next_person_id := by
      rw [← hk2, hfst]
      rfl
    have := person_id_str_inj this
    omega
  have Hfound : ∀ pd, s.tracked_people.find?
      (fun q => track_matches bounding_box f q.2) = some pd →
      (track_person s bounding_box f).1 = pd.1 := by
    intro pd hfd
    have hm : find_matching_track s bounding_box f = some pd.1 := by
      unfold find_matching_track
      rw [hfd]
      rfl
    unfold track_person
    rw [hm]
  refine ⟨⟨?_, ?_⟩, ?_, Hnomatch⟩
  · rintro ⟨pd, hpd, hcm⟩
    have hsome : ∃ q, s.tracked_people.find?
        (fun q => track_matches bounding_box f q.2) = some q := by
      rw [← Option.isSome_iff_exists]
      rw [List.find?_isSome]
      exact ⟨pd, hpd, (track_matches_iff bounding_box f pd.2).mpr hcm⟩
    obtain ⟨q, hq⟩ := hsome
    rw [Hfound q hq]
    exact List.mem_map.mpr ⟨q, List.mem_of_find?_eq_some hq, rfl⟩
  · intro hmem
    by_contra hno
    push_neg at hno
    exact (Hnomatch (fun pd hpd hcm => hno pd hpd hcm)).2.1 hmem
  · intro i h hcm hmin
    have hTM : track_matches bounding_box f (s.tracked_people.get ⟨i, h⟩).2 = true :=
      (track_matches_iff bounding_box f _).mpr hcm
    have hfd : s.tracked_people.find? (fun q => track_matches bounding_box f q.2) =
        some (s.tracked_people.get ⟨i, h⟩) := by
      refine find_first _ s.tracked_people i h hTM ?_
      intro j hj
      rcases Bool.eq_false_or_eq_true
        (track_matches bounding_box f (s.tracked_people.get ⟨j, Nat.lt_trans hj h⟩).2) with
        hT | hF
      · exact absurd ((track_matches_iff bounding_box f _).mp hT) (hmin j hj)
      · exact hF
    exact Hfound _ hfd

/-- Witness for C3: the tracking example of the spec — a detection close to a
frame-1 track on frame 2 reuses that track's id; after that, a far detection
on frame 2 with no match gets the fresh id person_1. -/
theorem c3_track_person_spec_witness :
    (track_person ⟨[("person_0", ⟨"person_0", 1, 1, [⟨100, 100, 50, 100⟩]⟩)], 1⟩
      ⟨105, 105, 50, 100⟩ 2).1 = "person_0" ∧
    (track_person ⟨[("person_0", ⟨"person_0", 1, 1, [⟨100, 100, 50, 100⟩]⟩)], 1⟩
      ⟨500, 500, 50, 100⟩ 2).1 = person_id_str 1 := by
  have hid : ∀ pd ∈ ([("person_0", (⟨"person_0", 1, 1, [⟨100, 100, 50, 100⟩]⟩ :
      PersonTrackingData))] : List (String × PersonTrackingData)),
      ∃ k, k < 1 ∧ pd.1 = person_id_str k := by
    intro pd hpd
    simp at hpd
    subst hpd
    exact ⟨0, by omega, rfl⟩
  constructor
  · have h := (c3_track_person_spec
      ⟨[("person_0", ⟨"person_0", 1, 1, [⟨100, 100, 50, 100⟩]⟩)], 1⟩
      ⟨105, 105, 50, 100⟩ 2 hid).2.1 0 (by simp)
      (by
        refine ⟨by norm_num, ⟨100, 100, 50, 100⟩, rfl, ?_⟩
        norm_num [dist_sq, calculate_bounding_box_center])
      (by intro j hj; omega)
    exact h
  · have h := (c3_track_person_spec
      ⟨[("person_0", ⟨"person_0", 1, 1, [⟨100, 100, 50, 100⟩]⟩)], 1⟩
      ⟨500, 500, 50, 100⟩ 2 hid).2.2
      (by
        intro pd hpd hcm
        simp at hpd
        subst hpd
        obtain ⟨hlast, last, hl, hd⟩ := hcm
        simp at hl
        rw [← hl] at hd
        norm_num [dist_sq, calculate_bounding_box_center] at hd)
    exact h.1

/-! ### Claim C4 -/

theorem analyze_object_for_high_value_iff (object_name zone_name : String) :
    analyze_object_for_high_value object_name zone_name = true ↔
      ((∃ item ∈ HIGH_VALUE_ITEMS, ci_contains object_name item) ∧
        ci_contains zone_name "exit") := by
  unfold analyze_object_for_high_value ci_contains
  rw [Bool.and_eq_true, List.any_eq_true]
  simp only [str_contains_iff]

/-- Claim C4: for an object detection with confidence at or above the minimum
threshold whose center resolves to a zone, the high-value-at-exit rule fires
iff the object name case-insensitively contains a configured high-value item
and the zone name case-insensitively contains "exit"; the alert then has type
UNPAID_ITEM_AT_EXIT, confidence = detection confidence x 0.9 and severity
HIGH; otherwise no alert is produced. -/
theorem c4_high_value_at_exit_spec (zones : List DetectionZone) (store : List TheftAlert)
    (now : ℕ) (object_name : String) (conf : ℚ) (rest : List (String × ℚ)) (bbox : BBox)
    (img : String) (z : DetectionZone)
    (hconf : MIN_CONFIDENCE ≤ conf) (hconf1 : conf ≤ 1)
    (hz : find_zone_for_bounding_box zones bbox = some z) :
    (((∃ item ∈ HIGH_VALUE_ITEMS, ci_contains object_name item) ∧
        ci_contains z.name "exit") →
      ∃ a, analyze_one_object zones store now
          (DetectedObject.valid ((object_name, conf) :: rest) bbox) img =
          (Except.ok [a], add_alert store a) ∧
        a.alert_type = "UNPAID_ITEM_AT_EXIT" ∧ a.confidence = conf * (9 / 10) ∧
        a.severity = "HIGH" ∧ a.location = z.name) ∧
    (¬ ((∃ item ∈ HIGH_VALUE_ITEMS, ci_contains object_name item) ∧
        ci_contains z.name "exit") →
      analyze_one_object zones store now
          (DetectedObject.valid ((object_name, conf) :: rest) bbox) img =
        (Except.ok [], store)) := by
  have hstep : analyze_one_object zones store now
      (DetectedObject.valid ((object_name, conf) :: rest) bbox) img =
      (match check_high_value_at_exit store now object_name z bbox conf img with
       | (Except.error e, s) => (Except.error (AnalysisError.validation e), s)
       | (Except.ok oa, s) => (Except.ok oa.toList, s)) := by
    unfold analyze_one_object
    dsimp only [List.head?]
    rw [if_neg (not_lt.mpr hconf), hz]
  constructor
  · intro hcond
    have hb : analyze_object_for_high_value object_name z.name = true :=
      (analyze_object_for_high_value_iff object_name z.name).mpr hcond
    refine ⟨alert_of now ⟨"UNPAID_ITEM_AT_EXIT",
      conf * HIGH_VALUE_EXIT_CONFIDENCE_MULTIPLIER, z.name,
      "High-value " ++ object_name ++ " detected at exit", img, [bbox], "HIGH"⟩,
      ?_, rfl, ?_, rfl, rfl⟩
    · rw [hstep]
      unfold check_high_value_at_exit
      rw [if_pos hb]
      rw [create_alert_valid store now
        ⟨"UNPAID_ITEM_AT_EXIT", conf * HIGH_VALUE_EXIT_CONFIDENCE_MULTIPLIER, z.name,
         "High-value " ++ object_name ++ " detected at exit", img, [bbox], "HIGH"⟩
        ⟨by show "HIGH" ∈ VALID_SEVERITY_LEVELS; decide,
         by
          show (0 : ℚ) ≤ conf * HIGH_VALUE_EXIT_CONFIDENCE_MULTIPLIER
          have h0 : (0 : ℚ) ≤ conf := le_trans (by norm_num [MIN_CONFIDENCE]) hconf
          have h1 : (0 : ℚ) ≤ HIGH_VALUE_EXIT_CONFIDENCE_MULTIPLIER := by
            norm_num [HIGH_VALUE_EXIT_CONFIDENCE_MULTIPLIER]
          exact mul_nonneg h0 h1,
         by
          show conf * HIGH_VALUE_EXIT_CONFIDENCE_MULTIPLIER ≤ 1
          have h1 : conf * HIGH_VALUE_EXIT_CONFIDENCE_MULTIPLIER ≤
              1 * HIGH_VALUE_EXIT_CONFIDENCE_MULTIPLIER := by
            apply mul_le_mul_of_nonneg_right hconf1
            norm_num [HIGH_VALUE_EXIT_CONFIDENCE_MULTIPLIER]
          calc conf * HIGH_VALUE_EXIT_CONFIDENCE_MULTIPLIER ≤
              1 * HIGH_VALUE_EXIT_CONFIDENCE_MULTIPLIER := h1
            _ ≤ 1 := by norm_num [HIGH_VALUE_EXIT_CONFIDENCE_MULTIPLIER]⟩]
      rfl
    · show conf * HIGH_VALUE_EXIT_CONFIDENCE_MULTIPLIER = conf * (9 / 10)
      rfl
  · intro hcond
    have hb : analyze_object_for_high_value object_name z.name = false := by
      rcases Bool.eq_false_or_eq_true (analyze_object_for_high_value object_name z.name) with
        hT | hF
      · exact absurd ((analyze_object_for_high_value_iff object_name z.name).mp hT) hcond
      · exact hF
    rw [hstep]
    unfold check_high_value_at_exit
    rw [if_neg (show ¬(analyze_object_for_high_value object_name z.name = true) by
      simp [hb])]
    rfl

/-- Witness for C4: the spec's end-to-end example — a laptop at confidence 0.9
in Exit_Zone yields one UNPAID_ITEM_AT_EXIT alert at confidence 0.81. -/
theorem c4_high_value_at_exit_spec_witness :
    (∃ a, analyze_one_object [exit_zone] [] 0
        (DetectedObject.valid [("laptop", 9 / 10)] ⟨800, 50, 40, 40⟩) "img" =
        (Except.ok [a], add_alert [] a) ∧
      a.alert_type = "UNPAID_ITEM_AT_EXIT" ∧ a.confidence = (9 / 10 : ℚ) * (9 / 10) ∧
      a.severity = "HIGH" ∧ a.location = "Exit_Zone") ∧
    ((9 / 10 : ℚ) * (9 / 10) = 81 / 100) := by
  have hz : find_zone_for_bounding_box [exit_zone] ⟨800, 50, 40, 40⟩ = some exit_zone := by
    unfold find_zone_for_bounding_box find_zone_for_point calculate_bounding_box_center
    norm_num [py_int, zone_contains_point, exit_zone, point_in_polygon,
      is_point_on_ray, List.rotate, List.find?, decide_eq_true_eq]
  have h := (c4_high_value_at_exit_spec [exit_zone] [] 0 "laptop" (9 / 10) [] ⟨800, 50, 40, 40⟩
    "img" exit_zone (by norm_num [MIN_CONFIDENCE]) (by norm_num) hz).1
    (by
      rw [← analyze_object_for_high_value_iff]
      show analyze_object_for_high_value "laptop" exit_zone.name = true
      decide)
  exact ⟨h, by norm_num⟩

/-! ### Claim C10 -/

/-- Claim C10: analyze_frame is not atomic with respect to the alert store.
If the people stage succeeds with alerts A and the objects stage then raises
(here: its first object is malformed), analyze_frame returns the empty alert
list for the frame, yet the alerts created during the people stage remain
appended to the store and appear in subsequent recent-alert queries. -/
theorem c10_analyze_frame_not_atomic (zones : List DetectionZone) (tracker : TrackerState)
    (store : List TheftAlert) (now : ℕ) (ppl : Option (List DetectedPerson))
    (objs : List DetectedObject) (tagsOpt : Option (List SceneTag)) (img : String) (f : ℤ)
    (A : List TheftAlert) (s1 : List TheftAlert) (t1 : TrackerState)
    (hA : analyze_people zones tracker store now
      ⟨ppl, some (DetectedObject.malformed :: objs), tagsOpt⟩ img f = (Except.ok A, s1, t1))
    (hlen : store.length + A.length ≤ 100) :
    analyze_frame zones tracker store now
      ⟨ppl, some (DetectedObject.malformed :: objs), tagsOpt⟩ img f = ([], s1, t1) ∧
    s1 = store ++ A ∧
    ∀ a ∈ A, a ∈ get_recent_alerts s1 none := by
  have hs1 : s1 = store ++ A := by
    have h := analyze_people_store _ _ _ _ _ _ _ _ _ _ hA
    rw [h, fold_add_alert A store (by unfold MAX_RECENT_ALERTS; omega)]
    have h0 : store.length + A.length - MAX_RECENT_ALERTS = 0 := by
      unfold MAX_RECENT_ALERTS
      omega
    rw [h0, List.drop_zero]
  refine ⟨?_, hs1, ?_⟩
  · unfold analyze_frame
    rw [hA]
    dsimp only
    have hobj : analyze_objects zones s1 now
        ⟨ppl, some (DetectedObject.malformed :: objs), tagsOpt⟩ img =
        (Except.error AnalysisError.attributeError, s1) := rfl
    rw [hobj]
  · intro a ha
    show a ∈ s1
    rw [hs1]
    exact List.mem_append_right store ha

/-- Witness for C10: one person in the restricted Employee_Storage zone
followed by a malformed object — the frame returns no alerts while the
restricted-area alert stays in the store. -/
theorem c10_analyze_frame_not_atomic_witness :
    analyze_frame [storage_zone] ⟨[], 0⟩ [] 0
      ⟨some [⟨⟨50, 450, 40, 40⟩, 8 / 10⟩], some [DetectedObject.malformed], none⟩
      "img" 0 =
      ([], [alert_of 0 ⟨"RESTRICTED_AREA_VIOLATION", 8 / 10, "Employee_Storage",
        "Unauthorized person in Employee_Storage", "img", [⟨50, 450, 40, 40⟩], "CRITICAL"⟩],
       (track_person ⟨[], 0⟩ ⟨50, 450, 40, 40⟩ 0).2) ∧
    [alert_of 0 ⟨"RESTRICTED_AREA_VIOLATION", 8 / 10, "Employee_Storage",
        "Unauthorized person in Employee_Storage", "img", [⟨50, 450, 40, 40⟩], "CRITICAL"⟩] =
      [] ++ [alert_of 0 ⟨"RESTRICTED_AREA_VIOLATION", 8 / 10, "Employee_Storage",
        "Unauthorized person in Employee_Storage", "img", [⟨50, 450, 40, 40⟩], "CRITICAL"⟩] ∧
    ∀ a ∈ [alert_of 0 ⟨"RESTRICTED_AREA_VIOLATION", 8 / 10, "Employee_Storage",
        "Unauthorized person in Employee_Storage", "img", [⟨50, 450, 40, 40⟩], "CRITICAL"⟩],
      a ∈ get_recent_alerts [alert_of 0 ⟨"RESTRICTED_AREA_VIOLATION", 8 / 10,
        "Employee_Storage", "Unauthorized person in Employee_Storage", "img",
        [⟨50, 450, 40, 40⟩], "CRITICAL"⟩] none := by
  have hz : find_zone_for_bounding_box [storage_zone] ⟨50, 450, 40, 40⟩ =
      some storage_zone := by
    unfold find_zone_for_bounding_box find_zone_for_point calculate_bounding_box_center
    norm_num [py_int, zone_contains_point, storage_zone, point_in_polygon,
      is_point_on_ray, List.rotate, List.find?, decide_eq_true_eq]
  have hcr : check_restricted_area_violation [] 0 storage_zone ⟨50, 450, 40, 40⟩ (8 / 10)
      "img" = (Except.ok (some (alert_of 0 ⟨"RESTRICTED_AREA_VIOLATION", 8 / 10,
        "Employee_Storage", "Unauthorized person in Employee_Storage", "img",
        [⟨50, 450, 40, 40⟩], "CRITICAL"⟩)),
      [alert_of 0 ⟨"RESTRICTED_AREA_VIOLATION", 8 / 10, "Employee_Storage",
        "Unauthorized person in Employee_Storage", "img", [⟨50, 450, 40, 40⟩],
        "CRITICAL"⟩]) := by
    unfold check_restricted_area_violation
    rw [if_pos (show storage_zone.is_restricted = true from rfl)]
    rw [create_alert_valid [] 0
      ⟨"RESTRICTED_AREA_VIOLATION", 8 / 10, storage_zone.name,
       "Unauthorized person in " ++ storage_zone.name, "img", [⟨50, 450, 40, 40⟩],
       "CRITICAL"⟩
      ⟨by show "CRITICAL" ∈ VALID_SEVERITY_LEVELS; decide,
       by show (0 : ℚ) ≤ 8 / 10; norm_num,
       by show (8 : ℚ) / 10 ≤ 1; norm_num⟩]
    rfl
  have hcl : check_loitering_violation
      [alert_of 0 ⟨"RESTRICTED_AREA_VIOLATION", 8 / 10, "Employee_Storage",
        "Unauthorized person in Employee_Storage", "img", [⟨50, 450, 40, 40⟩], "CRITICAL"⟩]
      0 (track_person ⟨[], 0⟩ ⟨50, 450, 40, 40⟩ 0).2 storage_zone
      (track_person ⟨[], 0⟩ ⟨50, 450, 40, 40⟩ 0).1 ⟨50, 450, 40, 40⟩ 0 "img" =
      (Except.ok none,
       [alert_of 0 ⟨"RESTRICTED_AREA_VIOLATION", 8 / 10, "Employee_Storage",
        "Unauthorized person in Employee_Storage", "img", [⟨50, 450, 40, 40⟩],
        "CRITICAL"⟩]) := by
    unfold check_loitering_violation
    rw [if_pos (show (!storage_zone.alert_on_loitering) = true from rfl)]
  have hA : analyze_people [storage_zone] ⟨[], 0⟩ [] 0
      ⟨some [⟨⟨50, 450, 40, 40⟩, 8 / 10⟩], some [DetectedObject.malformed], none⟩ "img" 0 =
      (Except.ok [alert_of 0 ⟨"RESTRICTED_AREA_VIOLATION", 8 / 10, "Employee_Storage",
        "Unauthorized person in Employee_Storage", "img", [⟨50, 450, 40, 40⟩], "CRITICAL"⟩],
       [alert_of 0 ⟨"RESTRICTED_AREA_VIOLATION", 8 / 10, "Employee_Storage",
        "Unauthorized person in Employee_Storage", "img", [⟨50, 450, 40, 40⟩], "CRITICAL"⟩],
       (track_person ⟨[], 0⟩ ⟨50, 450, 40, 40⟩ 0).2) := by
    unfold analyze_people analyze_people_go analyze_one_person
    dsimp only
    rw [hz]
    dsimp only
    rw [hcr]
    dsimp only
    rw [hcl]
    rfl
  exact c10_analyze_frame_not_atomic [storage_zone] ⟨[], 0⟩ [] 0
    (some [⟨⟨50, 450, 40, 40⟩, 8 / 10⟩]) [] none "img" 0 _ _ _ hA (by norm_num)
